import Mathlib

/-!
# LPS25H I2C sensor driver (`sensors/lps25h.go`)

A shallow embedding of the driver's configuration validator, constructor,
reset and read operations.

Stateful collaborators are modelled by explicit state passing:

* a bus stub is an arbitrary deterministic state machine over a state type `σ`;
  `I2C σ` and `I2CHandle σ` are records of its methods;
* every call the driver issues on a collaborator (bus, handle, logger, mutex) is
  appended, in program order, to the `trace` of the `World`.

Go conventions kept explicit:

* a `(value, error)` result whose two halves are inspected separately by the code
  is a pair of `Option`s (`none` is Go `nil`);
* `OpenHandle`, `board.FromDependencies` and `I2CByName` follow the Go convention
  that exactly one of value / failure is present, so they return `Except` / `Option`;
* `context.Context` and the ignored `extra` argument of `Readings` are passed through
  unchanged by the source and are omitted;
* Go `int` is `Int`, Go `byte` is a `Nat` below 256, and the conversion `byte(x)`
  is reduction modulo `2^8`.
-/

namespace Sensehat

/-- A Go byte slice (or the bytes of a Go string). -/
abbrev Bytes := List Nat

/-- Go `error` values that reach the driver. -/
inductive GoError where
  /-- an error value created by a collaborator (bus stub, dependency lookup) -/
  | external (msg : String)
  /-- the result of `errors.New` or of `fmt.Errorf` without a wrapping verb -/
  | new (msg : String)
  /-- the result of `fmt.Errorf` with a trailing wrapping verb: text before it, wrapped error -/
  | wrap (msg : String) (inner : GoError)
  /-- the result of `utils.NewConfigValidationFieldRequiredError path field` -/
  | fieldRequired (path : String) (field : String)
  deriving DecidableEq, Repr

/-- Calls issued by the driver on its collaborators, in program order. -/
inductive Event where
  /-- the call `bus.OpenHandle(addr)` -/
  | openHandle (addr : Nat)
  /-- the call `handle.Write(ctx, tx)` on the handle with the given identity -/
  | write (handle : Nat) (tx : Bytes)
  /-- the call `handle.Read(ctx, count)` -/
  | read (handle : Nat) (count : Nat)
  /-- the call `handle.Close()` -/
  | close (handle : Nat)
  /-- the call `logger.Warn(msg)` -/
  | warn (msg : String)
  /-- the call `logger.Debug(msg)` -/
  | debug (msg : String)
  /-- the call `logger.Errorf(format, arg)` -/
  | errorf (format : String) (arg : GoError)
  /-- the call `mu.Lock()` -/
  | lock
  /-- the call `mu.Unlock()` -/
  | unlock
  deriving DecidableEq, Repr

/-- Bus operations among the events: `OpenHandle`, `Write`, `Read`, `Close`. -/
def Event.isBus : Event → Bool
  | .openHandle _ => true
  | .write _ _ => true
  | .read _ _ => true
  | .close _ => true
  | _ => false

/-- Mutex operations among the events. -/
def Event.isMutex : Event → Bool
  | .lock => true
  | .unlock => true
  | _ => false

/-- The bus operations of a trace, in order. -/
def busEvents (t : List Event) : List Event := t.filter Event.isBus

/-- The interface `board.I2CHandle` as implemented by a stub with state `σ`. -/
structure I2CHandle (σ : Type) where
  /-- identity of the handle object, used to label events -/
  id : Nat
  /-- the method `Write(ctx, tx) error` -/
  Write : Bytes → σ → Option GoError × σ
  /-- the method `Read(ctx, count) ([]byte, error)` -/
  Read : Nat → σ → (Bytes × Option GoError) × σ
  /-- the method `Close() error` -/
  Close : σ → Option GoError × σ

/-- The interface `board.I2C` as implemented by a stub with state `σ`. -/
structure I2C (σ : Type) where
  /-- the method `OpenHandle(addr byte) (I2CHandle, error)` -/
  OpenHandle : Nat → σ → Except GoError (I2CHandle σ) × σ

/-- The interface `board.LocalBoard`, as far as the driver uses it. -/
structure LocalBoard (σ : Type) where
  /-- the method `I2CByName(name) (I2C, bool)` -/
  I2CByName : String → Option (I2C σ)

/-- A `board.Board` value; `asLocal` is the outcome of the type assertion
`b.(board.LocalBoard)`. -/
structure Board (σ : Type) where
  asLocal : Option (LocalBoard σ)

/-- The type `resource.Dependencies`, seen through `board.FromDependencies`. -/
structure Dependencies (σ : Type) where
  boardByName : String → Except GoError (Board σ)

/-- The library function `board.FromDependencies(deps, name)`. -/
def board.FromDependencies {σ : Type} (deps : Dependencies σ) (name : String) :
    Except GoError (Board σ) :=
  deps.boardByName name

/-- State of the collaborators: the stub state and the calls recorded so far. -/
structure World (σ : Type) where
  bus : σ
  trace : List Event

/-- Record a call that does not touch the bus state (logger, mutex). -/
def World.emit {σ : Type} (w : World σ) (e : Event) : World σ :=
  { bus := w.bus, trace := w.trace ++ [e] }

/-- Record a call on the stub and run it on the stub state. -/
def World.call {σ α : Type} (w : World σ) (e : Event) (op : σ → α × σ) : α × World σ :=
  ((op w.bus).1, { bus := (op w.bus).2, trace := w.trace ++ [e] })

def defaultI2Caddr : Int := 0x5c
def lps25hRSTReg : Int := 0xE0
def lps25hMeasurementsReg : Int := 0x5c

/-- The Go conversion `byte(x)` of an `int`. -/
def toByte (x : Int) : Nat := (x % 256).toNat

/-- The struct `Config`. -/
structure Config where
  Board : String
  I2CBus : String
  I2cAddr : Int
  deriving DecidableEq, Repr

/-- The method `(*Config).Validate`; Go `len` of a string is its length in bytes. -/
def Config.Validate (conf : Config) (path : String) : Option (List String) × Option GoError :=
  let deps : List String := []
  if conf.Board.utf8ByteSize == 0 then
    (none, some (GoError.fieldRequired path "board"))
  else
    let deps := deps ++ [conf.Board]
    if conf.I2CBus.utf8ByteSize == 0 then
      (none, some (GoError.fieldRequired path "i2c bus"))
    else
      (some deps, none)

/-- A value stored in the `map[string]interface{}` returned by `Readings`. -/
inductive GoValue where
  /-- a Go string, given by its bytes -/
  | str (bytes : Bytes)
  deriving DecidableEq, Repr

/-- The struct `lps25h`. `mu` is true while the mutex is held; `calibration` is a nil
map after construction; `lastTemp` only ever holds the integral sentinel. -/
structure lps25h (σ : Type) where
  name : String
  mu : Bool
  bus : I2C σ
  addr : Nat
  calibration : Option (List (String × Int))
  lastTemp : Int

/-- The method `(*lps25h).Readings`. -/
def lps25h.Readings {σ : Type} (s : lps25h σ) (w : World σ) :
    (Option (List (String × GoValue)) × Option GoError) × World σ :=
  match w.call (Event.openHandle s.addr) (s.bus.OpenHandle s.addr) with
  | (Except.error err, w1) =>
    ((none, some err), w1.emit (Event.errorf "can't open lps25h i2c %s" err))
  | (Except.ok handle, w1) =>
    let tx : Bytes := [toByte lps25hMeasurementsReg]
    let r2 := w1.call (Event.write handle.id tx) (handle.Write tx)
    let w2 := if r2.1.isSome then r2.2.emit (Event.debug "Failed to request temperature") else r2.2
    let r3 := w2.call (Event.read handle.id 8) (handle.Read 8)
    let buffer := r3.1.1
    if r3.1.2.isSome then
      ((none, r3.1.2), r3.2)
    else if buffer.length != 8 then
      ((none, some (GoError.new "i2c read did not get 8 bytes")), r3.2)
    else
      let r4 := r3.2.call (Event.close handle.id) handle.Close
      ((some [("id", GoValue.str buffer)], r4.1), r4.2)

/-- The method `(*lps25h).reset`. The register write is commented out in the source,
so the second test of `err` re-tests the nil error of the successful `OpenHandle`. -/
def lps25h.reset {σ : Type} (s : lps25h σ) (w : World σ) : Option GoError × World σ :=
  match w.call (Event.openHandle s.addr) (s.bus.OpenHandle s.addr) with
  | (Except.error err, w1) => (some err, w1)
  | (Except.ok handle, w1) =>
    let err : Option GoError := none
    if err.isSome then
      (err, w1)
    else
      w1.call (Event.close handle.id) handle.Close

/-- The method `(*lps25h).Reconfigure`: lock, deferred unlock, return nil.
The result is `none` when `Lock` blocks because the mutex is already held. -/
def lps25h.Reconfigure {σ : Type} (s : lps25h σ) (w : World σ) :
    Option (Option GoError × lps25h σ × World σ) :=
  if s.mu then
    none
  else
    let s1 := { s with mu := true }
    let w1 := w.emit Event.lock
    let s2 := { s1 with mu := false }
    let w2 := w1.emit Event.unlock
    some (none, s2, w2)

/-- The function `newSensor`. -/
def newSensor {σ : Type} (deps : Dependencies σ) (name : String) (conf : Config)
    (w : World σ) : (Option (lps25h σ) × Option GoError) × World σ :=
  match board.FromDependencies deps conf.Board with
  | Except.error err =>
    ((none, some (GoError.wrap "lps25h init: failed to find board: " err)), w)
  | Except.ok b =>
    match b.asLocal with
    | none => ((none, some (GoError.new ("board " ++ conf.Board ++ " is not local"))), w)
    | some localB =>
      match localB.I2CByName conf.I2CBus with
      | none =>
        ((none, some (GoError.new ("lps25h init: failed to find i2c bus " ++ conf.I2CBus))), w)
      | some i2cbus =>
        let addr := if conf.I2cAddr == 0 then defaultI2Caddr else conf.I2cAddr
        let w0 := if conf.I2cAddr == 0 then w.emit (Event.warn "using i2c address : 0x5c") else w
        let s : lps25h σ :=
          { name := name, mu := false, bus := i2cbus, addr := toByte addr,
            calibration := none, lastTemp := -999 }
        match s.reset w0 with
        | (some err, w1) => ((none, some err), w1)
        | (none, w1) => ((some s, none), w1)

/-- The driver value that `newSensor` builds (the struct literal it assigns to `s`)
for a resolved bus and an effective address of Go type `int`. -/
def builtDriver {σ : Type} (name : String) (bus : I2C σ) (addr : Int) : lps25h σ :=
  { name := name, mu := false, bus := bus, addr := toByte addr, calibration := none,
    lastTemp := -999 }

/-! ## Scripted stubs used to evaluate the driver on concrete inputs -/

/-- Outcomes a scripted bus stub gives to each of its methods. -/
structure StubScript where
  openErr : Option GoError
  writeErr : Option GoError
  readData : Bytes
  readErr : Option GoError
  closeErr : Option GoError

/-- A handle of the scripted stub. The stub state is the number of handles that
are currently open; `Close` releases one. -/
def stubHandle (c : StubScript) (id : Nat) : I2CHandle Nat :=
  { id := id,
    Write := fun _ n => (c.writeErr, n),
    Read := fun _ n => ((c.readData, c.readErr), n),
    Close := fun n => (c.closeErr, n - 1) }

/-- The bus of the scripted stub: a handle opened while `n` handles are open gets the
identity `n + 1`. -/
def stubBus (c : StubScript) : I2C Nat :=
  { OpenHandle := fun _ n =>
      match c.openErr with
      | some e => (Except.error e, n)
      | none => (Except.ok (stubHandle c (n + 1)), n + 1) }

/-- A local board that knows the single bus "bus1". -/
def stubLocalBoard (c : StubScript) : LocalBoard Nat :=
  { I2CByName := fun b => if b = "bus1" then some (stubBus c) else none }

/-- A dependency set with a local board "local" that knows the bus "bus1" and a
board "remote" that is not a local board. -/
def stubDeps (c : StubScript) : Dependencies Nat :=
  { boardByName := fun n =>
      if n = "local" then Except.ok { asLocal := some (stubLocalBoard c) }
      else if n = "remote" then Except.ok { asLocal := none }
      else Except.error (GoError.external "resource not found") }

/-- A stub on which every call succeeds and `Read` returns the bytes 1 to 8. -/
def okScript : StubScript :=
  { openErr := none, writeErr := none, readData := [1, 2, 3, 4, 5, 6, 7, 8],
    readErr := none, closeErr := none }

/-- A stub whose `Read` returns only seven bytes. -/
def shortScript : StubScript :=
  { openErr := none, writeErr := none, readData := [1, 2, 3, 4, 5, 6, 7],
    readErr := none, closeErr := none }

/-- A stub whose `Read` fails. -/
def readFailScript : StubScript :=
  { openErr := none, writeErr := none, readData := [],
    readErr := some (GoError.external "remote I/O error"), closeErr := none }

/-- A stub whose `Write` fails while everything else succeeds. -/
def writeFailScript : StubScript :=
  { openErr := none, writeErr := some (GoError.external "write nack"),
    readData := [1, 2, 3, 4, 5, 6, 7, 8], readErr := none, closeErr := none }

/-- A stub whose `OpenHandle` fails. -/
def openFailScript : StubScript :=
  { openErr := some (GoError.external "bus busy"), writeErr := none, readData := [],
    readErr := none, closeErr := none }

/-- A driver as `newSensor` builds it, on the scripted bus. -/
def stubDriver (c : StubScript) (addr : Nat) : lps25h Nat :=
  { name := "lps", mu := false, bus := stubBus c, addr := addr, calibration := none,
    lastTemp := -999 }

/-- The initial world of the scripted stub: no handle open, nothing recorded. -/
def world0 : World Nat := { bus := 0, trace := [] }

/-! ## One `Readings` call as a sequence of collaborator calls

The same method, cut at every call it issues on a collaborator, so that the calls of two
goroutines can be interleaved. `ReadingsRun_eq_Readings` shows that running the steps of
one call to completion is `Readings`. -/

/-- Control points of one `Readings` call: each names the collaborator call that comes
next, and `returned` carries the values of the `return` statement reached. -/
inductive ReadingsPc (σ : Type) where
  /-- before `s.bus.OpenHandle(s.addr)` -/
  | start
  /-- before `s.logger.Errorf`, with the error of `OpenHandle` -/
  | openFailed (err : GoError)
  /-- before `handle.Write` -/
  | opened (handle : I2CHandle σ)
  /-- before `s.logger.Debug`, after a failed write -/
  | writeFailed (handle : I2CHandle σ)
  /-- before `handle.Read` -/
  | toRead (handle : I2CHandle σ)
  /-- before `handle.Close`, with the 8 bytes read -/
  | toClose (handle : I2CHandle σ) (buffer : Bytes)
  /-- after a `return` -/
  | returned (result : Option (List (String × GoValue)) × Option GoError)

/-- The values returned, once the call has returned. -/
def ReadingsPc.result {σ : Type} :
    ReadingsPc σ → Option (Option (List (String × GoValue)) × Option GoError)
  | .returned r => some r
  | _ => none

/-- One collaborator call of `(*lps25h).Readings`, from a control point to the next. -/
def lps25h.ReadingsStep {σ : Type} (s : lps25h σ) :
    ReadingsPc σ → World σ → ReadingsPc σ × World σ
  | .start, w =>
    match w.call (Event.openHandle s.addr) (s.bus.OpenHandle s.addr) with
    | (Except.error err, w1) => (ReadingsPc.openFailed err, w1)
    | (Except.ok handle, w1) => (ReadingsPc.opened handle, w1)
  | .openFailed err, w =>
    (ReadingsPc.returned (none, some err),
      w.emit (Event.errorf "can't open lps25h i2c %s" err))
  | .opened handle, w =>
    let tx : Bytes := [toByte lps25hMeasurementsReg]
    let r2 := w.call (Event.write handle.id tx) (handle.Write tx)
    if r2.1.isSome then (ReadingsPc.writeFailed handle, r2.2)
    else (ReadingsPc.toRead handle, r2.2)
  | .writeFailed handle, w =>
    (ReadingsPc.toRead handle, w.emit (Event.debug "Failed to request temperature"))
  | .toRead handle, w =>
    let r3 := w.call (Event.read handle.id 8) (handle.Read 8)
    let buffer := r3.1.1
    if r3.1.2.isSome then
      (ReadingsPc.returned (none, r3.1.2), r3.2)
    else if buffer.length != 8 then
      (ReadingsPc.returned (none, some (GoError.new "i2c read did not get 8 bytes")), r3.2)
    else
      (ReadingsPc.toClose handle buffer, r3.2)
  | .toClose handle buffer, w =>
    let r4 := w.call (Event.close handle.id) handle.Close
    (ReadingsPc.returned (some [("id", GoValue.str buffer)], r4.1), r4.2)
  | .returned r, w => (ReadingsPc.returned r, w)

/-- Run `n` steps of one `Readings` call. -/
def lps25h.ReadingsRun {σ : Type} (s : lps25h σ) :
    Nat → ReadingsPc σ × World σ → ReadingsPc σ × World σ
  | 0, st => st
  | n + 1, st => lps25h.ReadingsRun s n (s.ReadingsStep st.1 st.2)

/-- Two goroutines, each inside a `Readings` call on the same driver, sharing the world.
The schedule says which goroutine issues the next collaborator call: `true` for the
first, `false` for the second. -/
def lps25h.interleave {σ : Type} (s : lps25h σ) :
    List Bool → ReadingsPc σ × ReadingsPc σ × World σ → ReadingsPc σ × ReadingsPc σ × World σ
  | [], st => st
  | true :: sched, (a, b, w) =>
    lps25h.interleave s sched ((s.ReadingsStep a w).1, b, (s.ReadingsStep a w).2)
  | false :: sched, (a, b, w) =>
    lps25h.interleave s sched (a, (s.ReadingsStep b w).1, (s.ReadingsStep b w).2)

/-- Two `Readings` calls on the all-succeeding stub, scheduled alternately. -/
def alternatingRun : ReadingsPc Nat × ReadingsPc Nat × World Nat :=
  (stubDriver okScript 0x5c).interleave [true, false, true, false, true, false, true, false]
    (ReadingsPc.start, ReadingsPc.start, world0)

/-! ## Auxiliary lemmas -/

theorem utf8ByteSize_go_cons_pos (c : Char) (cs : List Char) :
    0 < String.utf8ByteSize.go (c :: cs) := by
  have hc := Char.utf8Size_pos c
  simp only [String.utf8ByteSize.go]
  omega

theorem utf8ByteSize_eq_zero_iff (s : String) : s.utf8ByteSize = 0 ↔ s = "" := by
  constructor
  · intro h
    cases s with
    | mk cs =>
      cases cs with
      | nil => rfl
      | cons c cs =>
        have hpos := utf8ByteSize_go_cons_pos c cs
        change String.utf8ByteSize.go (c :: cs) = 0 at h
        omega
  · intro h
    subst h
    rfl

theorem Validate_of_board_empty (conf : Config) (path : String) (h : conf.Board = "") :
    conf.Validate path = (none, some (GoError.fieldRequired path "board")) := by
  have h0 : conf.Board.utf8ByteSize = 0 := (utf8ByteSize_eq_zero_iff _).2 h
  simp [Config.Validate, h0]

theorem Validate_of_bus_empty (conf : Config) (path : String) (hb : conf.Board ≠ "")
    (h : conf.I2CBus = "") :
    conf.Validate path = (none, some (GoError.fieldRequired path "i2c bus")) := by
  have h0 : conf.Board.utf8ByteSize ≠ 0 := fun e => hb ((utf8ByteSize_eq_zero_iff _).1 e)
  have h1 : conf.I2CBus.utf8ByteSize = 0 := (utf8ByteSize_eq_zero_iff _).2 h
  simp [Config.Validate, h0, h1]

theorem Validate_of_both (conf : Config) (path : String) (hb : conf.Board ≠ "")
    (h : conf.I2CBus ≠ "") :
    conf.Validate path = (some [conf.Board], none) := by
  have h0 : conf.Board.utf8ByteSize ≠ 0 := fun e => hb ((utf8ByteSize_eq_zero_iff _).1 e)
  have h1 : conf.I2CBus.utf8ByteSize ≠ 0 := fun e => h ((utf8ByteSize_eq_zero_iff _).1 e)
  simp [Config.Validate, h0, h1]

theorem toByte_eq_self_iff (a : Int) : ((toByte a : Nat) : Int) = a ↔ 0 ≤ a ∧ a < 256 := by
  unfold toByte
  omega

theorem Readings_of_open_error {σ : Type} (s : lps25h σ) (w : World σ) (e : GoError) (b1 : σ)
    (hopen : s.bus.OpenHandle s.addr w.bus = (Except.error e, b1)) :
    s.Readings w =
      ((none, some e),
        { bus := b1,
          trace := w.trace ++
            [Event.openHandle s.addr, Event.errorf "can't open lps25h i2c %s" e] }) := by
  simp [lps25h.Readings, World.call, World.emit, hopen]

theorem Readings_of_read_error {σ : Type} (s : lps25h σ) (w : World σ) (h : I2CHandle σ)
    (b1 b2 b3 : σ) (werr : Option GoError) (buf : Bytes) (e : GoError)
    (hopen : s.bus.OpenHandle s.addr w.bus = (Except.ok h, b1))
    (hwrite : h.Write [0x5c] b1 = (werr, b2))
    (hread : h.Read 8 b2 = ((buf, some e), b3)) :
    s.Readings w =
      ((none, some e),
        { bus := b3,
          trace := w.trace ++ [Event.openHandle s.addr, Event.write h.id [0x5c]] ++
            (if werr.isSome then [Event.debug "Failed to request temperature"] else []) ++
            [Event.read h.id 8] }) := by
  have htx : toByte lps25hMeasurementsReg = 0x5c := by decide
  cases werr <;>
    simp [lps25h.Readings, World.call, World.emit, hopen, htx, hwrite, hread]

theorem Readings_of_short_read {σ : Type} (s : lps25h σ) (w : World σ) (h : I2CHandle σ)
    (b1 b2 b3 : σ) (werr : Option GoError) (buf : Bytes)
    (hopen : s.bus.OpenHandle s.addr w.bus = (Except.ok h, b1))
    (hwrite : h.Write [0x5c] b1 = (werr, b2))
    (hread : h.Read 8 b2 = ((buf, none), b3))
    (hlen : buf.length ≠ 8) :
    s.Readings w =
      ((none, some (GoError.new "i2c read did not get 8 bytes")),
        { bus := b3,
          trace := w.trace ++ [Event.openHandle s.addr, Event.write h.id [0x5c]] ++
            (if werr.isSome then [Event.debug "Failed to request temperature"] else []) ++
            [Event.read h.id 8] }) := by
  have htx : toByte lps25hMeasurementsReg = 0x5c := by decide
  cases werr <;>
    simp [lps25h.Readings, World.call, World.emit, hopen, htx, hwrite, hread, hlen]

theorem Readings_of_full_read {σ : Type} (s : lps25h σ) (w : World σ) (h : I2CHandle σ)
    (b1 b2 b3 b4 : σ) (werr cerr : Option GoError) (buf : Bytes)
    (hopen : s.bus.OpenHandle s.addr w.bus = (Except.ok h, b1))
    (hwrite : h.Write [0x5c] b1 = (werr, b2))
    (hread : h.Read 8 b2 = ((buf, none), b3))
    (hlen : buf.length = 8)
    (hclose : h.Close b3 = (cerr, b4)) :
    s.Readings w =
      ((some [("id", GoValue.str buf)], cerr),
        { bus := b4,
          trace := w.trace ++ [Event.openHandle s.addr, Event.write h.id [0x5c]] ++
            (if werr.isSome then [Event.debug "Failed to request temperature"] else []) ++
            [Event.read h.id 8, Event.close h.id] }) := by
  have htx : toByte lps25hMeasurementsReg = 0x5c := by decide
  cases werr <;>
    simp [lps25h.Readings, World.call, World.emit, hopen, htx, hwrite, hread, hlen, hclose]

theorem reset_of_open_error {σ : Type} (s : lps25h σ) (w : World σ) (e : GoError) (b1 : σ)
    (hopen : s.bus.OpenHandle s.addr w.bus = (Except.error e, b1)) :
    s.reset w = (some e, { bus := b1, trace := w.trace ++ [Event.openHandle s.addr] }) := by
  simp [lps25h.reset, World.call, hopen]

theorem reset_of_open_ok {σ : Type} (s : lps25h σ) (w : World σ) (h : I2CHandle σ)
    (b1 b2 : σ) (cerr : Option GoError)
    (hopen : s.bus.OpenHandle s.addr w.bus = (Except.ok h, b1))
    (hclose : h.Close b1 = (cerr, b2)) :
    s.reset w =
      (cerr, { bus := b2, trace := w.trace ++ [Event.openHandle s.addr, Event.close h.id] }) := by
  simp [lps25h.reset, World.call, hopen, hclose]

theorem newSensor_of_resolved {σ : Type} (deps : Dependencies σ) (name : String)
    (conf : Config) (w : World σ) (b : Board σ) (lb : LocalBoard σ) (bus : I2C σ)
    (hb : board.FromDependencies deps conf.Board = Except.ok b)
    (hl : b.asLocal = some lb)
    (hbus : lb.I2CByName conf.I2CBus = some bus) :
    newSensor deps name conf w =
      match (builtDriver name bus
          (if conf.I2cAddr = 0 then defaultI2Caddr else conf.I2cAddr)).reset
          (if conf.I2cAddr = 0 then w.emit (Event.warn "using i2c address : 0x5c") else w) with
      | (some err, w1) => ((none, some err), w1)
      | (none, w1) =>
        ((some (builtDriver name bus
          (if conf.I2cAddr = 0 then defaultI2Caddr else conf.I2cAddr)), none), w1) := by
  simp [newSensor, hb, hl, hbus, builtDriver]

/-! ## Configuration validator -/

/-- C3 (as stated, refuted): with both `board` and `i2c_bus` empty the error names
"board", not "i2c bus". -/
theorem Validate_empty_bus_names_board :
    (Config.mk "" "" 0).I2CBus = "" ∧
    (Config.mk "" "" 0).Validate "cfg" = (none, some (GoError.fieldRequired "cfg" "board")) ∧
    ∀ p, ((Config.mk "" "" 0).Validate "cfg").2 ≠ some (GoError.fieldRequired p "i2c bus") := by
  have h : (Config.mk "" "" 0).Validate "cfg" = (none, some (GoError.fieldRequired "cfg" "board")) := by
    decide
  refine ⟨rfl, h, fun p hp => ?_⟩
  rw [h] at hp
  simp at hp

/-- C3 (amended): when `i2c_bus` is empty, `Validate` returns a nil dependency list and a
required-field error for the given path; the error names "i2c bus" when `board` is
non-empty and "board" when `board` is empty as well. -/
theorem Validate_bus_empty (conf : Config) (path : String) (h : conf.I2CBus = "") :
    (conf.Board ≠ "" →
      conf.Validate path = (none, some (GoError.fieldRequired path "i2c bus"))) ∧
    (conf.Board = "" →
      conf.Validate path = (none, some (GoError.fieldRequired path "board"))) :=
  ⟨fun hb => Validate_of_bus_empty conf path hb h, fun hb => Validate_of_board_empty conf path hb⟩

theorem Validate_bus_empty_witness :
    (Config.mk "local" "" 0).I2CBus = "" ∧
    (Config.mk "local" "" 0).Validate "cfg" =
      (none, some (GoError.fieldRequired "cfg" "i2c bus")) :=
  ⟨rfl, (Validate_bus_empty (Config.mk "local" "" 0) "cfg" rfl).1 (by decide)⟩

/-- C4: when `board` is empty, whatever `i2c_bus`, `i2c_addr` and the path are, `Validate`
returns a nil dependency list and a required-field error naming "board". `Validate` is a
function of the configuration and the path alone: it has no bus, handle or world in
scope, so no bus access can occur. -/
theorem Validate_board_empty (conf : Config) (path : String) (h : conf.Board = "") :
    (conf.Validate path).1 = none ∧
    (conf.Validate path).2 = some (GoError.fieldRequired path "board") := by
  rw [Validate_of_board_empty conf path h]
  exact ⟨rfl, rfl⟩

theorem Validate_board_empty_witness :
    ((Config.mk "" "bus1" 92).Validate "cfg").1 = none ∧
    ((Config.mk "" "bus1" 92).Validate "cfg").2 = some (GoError.fieldRequired "cfg" "board") :=
  Validate_board_empty (Config.mk "" "bus1" 92) "cfg" rfl

/-- C5: `Validate` succeeds if and only if both `board` and `i2c_bus` are non-empty; on
success it returns a nil error and exactly the one-element list `[board]`: the list has
length one, its only entry is the `board` field and the `i2c_bus` field is never appended
(the `i2c_bus` name occurs in it only as the name of the board); and on success the
result does not depend on `i2c_addr` or on the path, nor does whether validation
succeeds or which list is returned. -/
theorem Validate_success (conf : Config) (path : String) :
    ((conf.Validate path).2 = none ↔ conf.Board ≠ "" ∧ conf.I2CBus ≠ "") ∧
    ((conf.Validate path).2 = none → conf.Validate path = (some [conf.Board], none)) ∧
    (∀ ds, (conf.Validate path).1 = some ds →
      ds.length = 1 ∧ (∀ d ∈ ds, d = conf.Board) ∧
      (conf.I2CBus ∈ ds ↔ conf.I2CBus = conf.Board)) ∧
    ((conf.Validate path).2 = none → ∀ (addr : Int) (path2 : String),
      (Config.mk conf.Board conf.I2CBus addr).Validate path2 = conf.Validate path) ∧
    (∀ (addr : Int) (path2 : String),
      ((Config.mk conf.Board conf.I2CBus addr).Validate path2).1 = (conf.Validate path).1 ∧
      (((Config.mk conf.Board conf.I2CBus addr).Validate path2).2 = none ↔
        (conf.Validate path).2 = none)) := by
  by_cases hb : conf.Board = ""
  · have h1 := Validate_of_board_empty conf path hb
    refine ⟨?_, ?_, ?_, ?_, ?_⟩
    · simp [h1, hb]
    · simp [h1]
    · simp [h1]
    · simp [h1]
    · intro addr path2
      have h2 := Validate_of_board_empty (Config.mk conf.Board conf.I2CBus addr) path2 hb
      simp [h1, h2]
  · by_cases hi : conf.I2CBus = ""
    · have h1 := Validate_of_bus_empty conf path hb hi
      refine ⟨?_, ?_, ?_, ?_, ?_⟩
      · simp [h1, hi]
      · simp [h1]
      · simp [h1]
      · simp [h1]
      · intro addr path2
        have h2 := Validate_of_bus_empty (Config.mk conf.Board conf.I2CBus addr) path2 hb hi
        simp [h1, h2]
    · have h1 := Validate_of_both conf path hb hi
      refine ⟨?_, ?_, ?_, ?_, ?_⟩
      · simp [h1, hb, hi]
      · simp [h1]
      · intro ds hds
        rw [h1] at hds
        cases hds
        simp
      · intro _ addr path2
        have h2 := Validate_of_both (Config.mk conf.Board conf.I2CBus addr) path2 hb hi
        rw [h1, h2]
      · intro addr path2
        have h2 := Validate_of_both (Config.mk conf.Board conf.I2CBus addr) path2 hb hi
        simp [h1, h2]

/-! ## Construction -/

/-- C2 (as stated, refuted): with `i2c_addr = 300` on a resolving dependency set, the
address passed to `OpenHandle` and stored in the returned driver is 44, not 300; with
`i2c_addr = -1` the address passed to `OpenHandle` is 255. -/
theorem newSensor_addr_300_truncated :
    (Config.mk "local" "bus1" 300).I2cAddr ≠ 0 ∧
    (newSensor (stubDeps okScript) "lps" (Config.mk "local" "bus1" 300) world0).2.trace =
      [Event.openHandle 44, Event.close 1] ∧
    (newSensor (stubDeps okScript) "lps" (Config.mk "local" "bus1" 300) world0).1.1.map
      (fun s => (s.addr : Int)) = some 44 ∧
    (newSensor (stubDeps okScript) "lps" (Config.mk "local" "bus1" 300) world0).1.1.map
      (fun s => (s.addr : Int)) ≠ some (Config.mk "local" "bus1" 300).I2cAddr ∧
    (newSensor (stubDeps okScript) "lps" (Config.mk "local" "bus1" (-1)) world0).2.trace =
      [Event.openHandle 255, Event.close 1] := by
  decide

/-- C2 (amended): for a non-zero `i2c_addr` on a resolving dependency set, `newSensor`
uses `byte(i2c_addr)`, the address reduced modulo 256. The calls it records are exactly
`OpenHandle` with that byte, followed by `Close` of the handle when `OpenHandle`
succeeded: every recorded call is a bus call, so no fallback warning is logged. A
returned driver stores that byte. The byte is numerically equal to `i2c_addr` exactly
when `0 ≤ i2c_addr < 256`. -/
theorem newSensor_configured_addr {σ : Type} (deps : Dependencies σ) (name : String)
    (conf : Config) (w : World σ) (b : Board σ) (lb : LocalBoard σ) (bus : I2C σ)
    (hb : board.FromDependencies deps conf.Board = Except.ok b)
    (hl : b.asLocal = some lb)
    (hbus : lb.I2CByName conf.I2CBus = some bus)
    (hz : conf.I2cAddr ≠ 0) :
    (newSensor deps name conf w).2.trace =
      w.trace ++ Event.openHandle (conf.I2cAddr % 256).toNat ::
        (match (bus.OpenHandle (conf.I2cAddr % 256).toNat w.bus).1 with
          | Except.ok h => [Event.close h.id]
          | Except.error _ => []) ∧
    (∀ evs, (newSensor deps name conf w).2.trace = w.trace ++ evs →
      (∀ e ∈ evs, e.isBus = true) ∧ ∀ msg, Event.warn msg ∉ evs) ∧
    (∀ s, (newSensor deps name conf w).1.1 = some s → s.addr = (conf.I2cAddr % 256).toNat) ∧
    ((((conf.I2cAddr % 256).toNat : Nat) : Int) = conf.I2cAddr ↔
      0 ≤ conf.I2cAddr ∧ conf.I2cAddr < 256) := by
  have hn := newSensor_of_resolved deps name conf w b lb bus hb hl hbus
  simp only [hz, if_false] at hn
  have haddr : (builtDriver name bus conf.I2cAddr).addr = (conf.I2cAddr % 256).toNat := rfl
  have htrace : (newSensor deps name conf w).2.trace =
      w.trace ++ Event.openHandle (conf.I2cAddr % 256).toNat ::
        (match (bus.OpenHandle (conf.I2cAddr % 256).toNat w.bus).1 with
          | Except.ok h => [Event.close h.id]
          | Except.error _ => []) := by
    rcases hopen : bus.OpenHandle (conf.I2cAddr % 256).toNat w.bus with ⟨r, b1⟩
    cases r with
    | error e =>
      have hr := reset_of_open_error (builtDriver name bus conf.I2cAddr) w e b1 hopen
      rw [hr] at hn
      rw [hn]
      simp [haddr]
    | ok h =>
      rcases hclose : h.Close b1 with ⟨cerr, b2⟩
      have hr := reset_of_open_ok (builtDriver name bus conf.I2cAddr) w h b1 b2 cerr hopen hclose
      rw [hr] at hn
      rw [hn]
      cases cerr <;> simp [haddr]
  refine ⟨htrace, ?_, ?_, toByte_eq_self_iff conf.I2cAddr⟩
  · intro evs hevs
    rw [htrace] at hevs
    have hevs2 := List.append_cancel_left hevs
    subst hevs2
    rcases (bus.OpenHandle (conf.I2cAddr % 256).toNat w.bus).1 with e | h <;>
      simp [Event.isBus]
  · intro s hs
    rw [hn] at hs
    rcases hres : (builtDriver name bus conf.I2cAddr).reset w with ⟨r, w1⟩
    rw [hres] at hs
    cases r with
    | none =>
      simp at hs
      rw [← hs]
      rfl
    | some e => simp at hs

theorem newSensor_configured_addr_witness :
    (Config.mk "local" "bus1" 300).I2cAddr ≠ 0 ∧
    (newSensor (stubDeps okScript) "lps" (Config.mk "local" "bus1" 300) world0).2.trace =
      world0.trace ++ [Event.openHandle 44, Event.close 1] ∧
    (∀ msg, Event.warn msg ∉ [Event.openHandle 44, Event.close 1]) :=
  have hw := newSensor_configured_addr (stubDeps okScript) "lps"
    (Config.mk "local" "bus1" 300) world0
    { asLocal := some (stubLocalBoard okScript) } (stubLocalBoard okScript) (stubBus okScript)
    rfl rfl rfl (by decide)
  ⟨by decide, hw.1, (hw.2.1 [Event.openHandle 44, Event.close 1] hw.1).2⟩

/-- C6: when dependency resolution fails (the board is not in the dependency set, or the
resolved board is not a local board, or the local board does not know the configured bus
name), `newSensor` returns no driver and an error, and leaves the world untouched: no
`OpenHandle`, `Write`, `Read` or `Close` (nor any other call) is recorded, so `reset`,
whose first action is `OpenHandle`, was not called. -/
theorem newSensor_resolution_failure {σ : Type} (deps : Dependencies σ) (name : String)
    (conf : Config) (w : World σ)
    (h : (∃ e, board.FromDependencies deps conf.Board = Except.error e) ∨
      (∃ b, board.FromDependencies deps conf.Board = Except.ok b ∧
        (b.asLocal = none ∨ ∃ lb, b.asLocal = some lb ∧ lb.I2CByName conf.I2CBus = none))) :
    (newSensor deps name conf w).1.1 = none ∧
    (newSensor deps name conf w).1.2 ≠ none ∧
    (newSensor deps name conf w).2 = w := by
  rcases h with ⟨e, he⟩ | ⟨b, hb, hl | ⟨lb, hl, hbus⟩⟩
  · simp [newSensor, he]
  · simp [newSensor, hb, hl]
  · simp [newSensor, hb, hl, hbus]

theorem newSensor_resolution_failure_witness :
    (newSensor (stubDeps okScript) "lps" (Config.mk "remote" "bus1" 0) world0).1.1 = none ∧
    (newSensor (stubDeps okScript) "lps" (Config.mk "remote" "bus1" 0) world0).1.2 ≠ none ∧
    (newSensor (stubDeps okScript) "lps" (Config.mk "remote" "bus1" 0) world0).2 = world0 :=
  newSensor_resolution_failure (stubDeps okScript) "lps" (Config.mk "remote" "bus1" 0) world0
    (Or.inr ⟨{ asLocal := none }, rfl, Or.inl rfl⟩)

/-- C8: when dependency resolution succeeds, `newSensor` returns a driver with a nil
error if and only if `reset` (run on the built driver, after the optional fallback
warning) returns nil; a driver is never returned together with an error; `reset` returns
nil if and only if `OpenHandle` succeeds and the following `Close` returns nil; and when
`OpenHandle` fails, `newSensor` returns exactly that error and no driver. -/
theorem newSensor_driver_iff_reset {σ : Type} (deps : Dependencies σ) (name : String)
    (conf : Config) (w : World σ) (b : Board σ) (lb : LocalBoard σ) (bus : I2C σ)
    (hb : board.FromDependencies deps conf.Board = Except.ok b)
    (hl : b.asLocal = some lb)
    (hbus : lb.I2CByName conf.I2CBus = some bus) :
    (((newSensor deps name conf w).1.1 ≠ none ∧ (newSensor deps name conf w).1.2 = none) ↔
      ((builtDriver name bus (if conf.I2cAddr = 0 then defaultI2Caddr else conf.I2cAddr)).reset
        (if conf.I2cAddr = 0 then w.emit (Event.warn "using i2c address : 0x5c") else w)).1
        = none) ∧
    ((newSensor deps name conf w).1.1 ≠ none → (newSensor deps name conf w).1.2 = none) ∧
    (((builtDriver name bus (if conf.I2cAddr = 0 then defaultI2Caddr else conf.I2cAddr)).reset
        (if conf.I2cAddr = 0 then w.emit (Event.warn "using i2c address : 0x5c") else w)).1
        = none ↔
      ∃ h, (bus.OpenHandle (toByte (if conf.I2cAddr = 0 then defaultI2Caddr else conf.I2cAddr))
          w.bus).1 = Except.ok h ∧
        (h.Close (bus.OpenHandle
          (toByte (if conf.I2cAddr = 0 then defaultI2Caddr else conf.I2cAddr)) w.bus).2).1
          = none) ∧
    (∀ e, (bus.OpenHandle (toByte (if conf.I2cAddr = 0 then defaultI2Caddr else conf.I2cAddr))
        w.bus).1 = Except.error e →
      (newSensor deps name conf w).1 = (none, some e)) := by
  have hn := newSensor_of_resolved deps name conf w b lb bus hb hl hbus
  generalize hA : (if conf.I2cAddr = 0 then defaultI2Caddr else conf.I2cAddr) = A at hn ⊢
  generalize hW : (if conf.I2cAddr = 0 then w.emit (Event.warn "using i2c address : 0x5c")
    else w) = W at hn ⊢
  have hWbus : W.bus = w.bus := by
    rw [← hW]
    split <;> rfl
  have haddr : (builtDriver name bus A).addr = toByte A := rfl
  rcases hopen : bus.OpenHandle (toByte A) w.bus with ⟨r, b1⟩
  cases r with
  | error e =>
    have hr := reset_of_open_error (builtDriver name bus A) W e b1 (by rw [haddr, hWbus]; exact hopen)
    rw [hr] at hn
    simp [hn, hr]
  | ok h =>
    rcases hclose : h.Close b1 with ⟨cerr, b2⟩
    have hr := reset_of_open_ok (builtDriver name bus A) W h b1 b2 cerr
      (by rw [haddr, hWbus]; exact hopen) hclose
    rw [hr] at hn
    cases cerr <;> simp [hn, hr, hclose]

theorem newSensor_driver_iff_reset_witness :
    (newSensor (stubDeps openFailScript) "lps" (Config.mk "local" "bus1" 0) world0).1 =
      (none, some (GoError.external "bus busy")) :=
  (newSensor_driver_iff_reset (stubDeps openFailScript) "lps" (Config.mk "local" "bus1" 0)
    world0 { asLocal := some (stubLocalBoard openFailScript) } (stubLocalBoard openFailScript)
    (stubBus openFailScript) rfl rfl rfl).2.2.2 (GoError.external "bus busy") rfl

/-- C9: for a configuration with `i2c_addr` zero on a resolving dependency set whose bus
accepts `OpenHandle` and `Close`, `newSensor` returns the driver with effective address
0x5c and a nil error, and records exactly three calls: one fallback warning, then one
`OpenHandle` with address 0x5c, then one `Close` of that handle, with no write or read in
between. -/
theorem newSensor_default_addr {σ : Type} (deps : Dependencies σ) (name : String)
    (conf : Config) (w : World σ) (b : Board σ) (lb : LocalBoard σ) (bus : I2C σ)
    (h : I2CHandle σ) (b1 b2 : σ)
    (hb : board.FromDependencies deps conf.Board = Except.ok b)
    (hl : b.asLocal = some lb)
    (hbus : lb.I2CByName conf.I2CBus = some bus)
    (hz : conf.I2cAddr = 0)
    (hopen : bus.OpenHandle 0x5c w.bus = (Except.ok h, b1))
    (hclose : h.Close b1 = (none, b2)) :
    (newSensor deps name conf w).1 =
      (some { name := name, mu := false, bus := bus, addr := 0x5c, calibration := none,
              lastTemp := -999 }, none) ∧
    (newSensor deps name conf w).2 =
      { bus := b2,
        trace := w.trace ++ [Event.warn "using i2c address : 0x5c", Event.openHandle 0x5c,
          Event.close h.id] } := by
  have hn := newSensor_of_resolved deps name conf w b lb bus hb hl hbus
  simp only [hz, if_true] at hn
  have hbd : builtDriver name bus defaultI2Caddr =
      { name := name, mu := false, bus := bus, addr := 0x5c, calibration := none,
        lastTemp := -999 } := rfl
  have hr := reset_of_open_ok (builtDriver name bus defaultI2Caddr)
    (w.emit (Event.warn "using i2c address : 0x5c")) h b1 b2 none hopen hclose
  rw [hr] at hn
  rw [hn, hbd]
  simp [World.emit]

theorem newSensor_default_addr_witness :
    (newSensor (stubDeps okScript) "lps" (Config.mk "local" "bus1" 0) world0).1 =
      (some { name := "lps", mu := false, bus := stubBus okScript, addr := 0x5c,
              calibration := none, lastTemp := -999 }, none) ∧
    (newSensor (stubDeps okScript) "lps" (Config.mk "local" "bus1" 0) world0).2 =
      { bus := 0,
        trace := [] ++ [Event.warn "using i2c address : 0x5c", Event.openHandle 0x5c,
          Event.close 1] } :=
  newSensor_default_addr (stubDeps okScript) "lps" (Config.mk "local" "bus1" 0) world0
    { asLocal := some (stubLocalBoard okScript) } (stubLocalBoard okScript) (stubBus okScript)
    (stubHandle okScript 1) 1 0 rfl rfl rfl rfl rfl rfl

/-! ## Reading -/

/-- C7: if `OpenHandle` succeeds, `Read` returns exactly 8 bytes without error and `Close`
succeeds, then whatever the trigger write returns, `Readings` returns a nil error and the
mapping whose only entry "id" holds those 8 bytes in order, and the bus calls it issued
are exactly `OpenHandle`, one `Write` of the single byte 0x5c, one `Read` of length 8 and
one `Close`, in that order (a debug line is logged after a failed write). -/
theorem Readings_success {σ : Type} (s : lps25h σ) (w : World σ) (h : I2CHandle σ)
    (b1 b2 b3 b4 : σ) (werr : Option GoError) (buf : Bytes)
    (hopen : s.bus.OpenHandle s.addr w.bus = (Except.ok h, b1))
    (hwrite : h.Write [0x5c] b1 = (werr, b2))
    (hread : h.Read 8 b2 = ((buf, none), b3))
    (hlen : buf.length = 8)
    (hclose : h.Close b3 = (none, b4)) :
    (s.Readings w).1 = (some [("id", GoValue.str buf)], none) ∧
    (s.Readings w).2.bus = b4 ∧
    (s.Readings w).2.trace =
      w.trace ++ [Event.openHandle s.addr, Event.write h.id [0x5c]] ++
        (if werr.isSome then [Event.debug "Failed to request temperature"] else []) ++
        [Event.read h.id 8, Event.close h.id] ∧
    busEvents (s.Readings w).2.trace =
      busEvents w.trace ++
        [Event.openHandle s.addr, Event.write h.id [0x5c], Event.read h.id 8,
          Event.close h.id] := by
  rw [Readings_of_full_read s w h b1 b2 b3 b4 werr none buf hopen hwrite hread hlen hclose]
  refine ⟨rfl, rfl, rfl, ?_⟩
  cases werr <;> simp [busEvents, Event.isBus]

theorem Readings_success_witness :
    ((stubDriver writeFailScript 0x5c).Readings world0).1 =
      (some [("id", GoValue.str [1, 2, 3, 4, 5, 6, 7, 8])], none) ∧
    busEvents ((stubDriver writeFailScript 0x5c).Readings world0).2.trace =
      busEvents world0.trace ++
        [Event.openHandle 0x5c, Event.write 1 [0x5c], Event.read 1 8, Event.close 1] :=
  have hw := Readings_success (stubDriver writeFailScript 0x5c) world0
    (stubHandle writeFailScript 1) 1 1 1 0 (some (GoError.external "write nack"))
    [1, 2, 3, 4, 5, 6, 7, 8] rfl rfl rfl rfl rfl
  ⟨hw.1, hw.2.2.2⟩

/-- C1 (code evaluated at the failing inputs): on a stub whose `Read` returns seven
bytes, and on a stub whose `Read` fails, `Readings` returns an error and no mapping after
the calls `OpenHandle`, `Write`, `Read` only: no `Close` is issued and the stub is left
with one handle open. On the stub that returns eight bytes, `Close` is issued and no
handle stays open. -/
theorem Readings_early_return_skips_close :
    ((stubDriver shortScript 0x5c).Readings world0).1 =
      (none, some (GoError.new "i2c read did not get 8 bytes")) ∧
    ((stubDriver shortScript 0x5c).Readings world0).2.trace =
      [Event.openHandle 0x5c, Event.write 1 [0x5c], Event.read 1 8] ∧
    ((stubDriver shortScript 0x5c).Readings world0).2.bus = 1 ∧
    ((stubDriver readFailScript 0x5c).Readings world0).1 =
      (none, some (GoError.external "remote I/O error")) ∧
    ((stubDriver readFailScript 0x5c).Readings world0).2.trace =
      [Event.openHandle 0x5c, Event.write 1 [0x5c], Event.read 1 8] ∧
    ((stubDriver readFailScript 0x5c).Readings world0).2.bus = 1 ∧
    ((stubDriver okScript 0x5c).Readings world0).2.trace =
      [Event.openHandle 0x5c, Event.write 1 [0x5c], Event.read 1 8, Event.close 1] ∧
    ((stubDriver okScript 0x5c).Readings world0).2.bus = 0 := by
  decide

/-! ## Mutex -/

theorem Reconfigure_locks {σ : Type} (s : lps25h σ) (w : World σ) (h : s.mu = false) :
    s.Reconfigure w =
      some (none, s, { bus := w.bus, trace := w.trace ++ [Event.lock, Event.unlock] }) := by
  cases s
  simp_all [lps25h.Reconfigure, World.emit]

theorem Readings_no_mutex_call {σ : Type} (s : lps25h σ) (w : World σ) :
    ∃ evs, (s.Readings w).2.trace = w.trace ++ evs ∧ ∀ e ∈ evs, e.isMutex = false := by
  rcases hopen : s.bus.OpenHandle s.addr w.bus with ⟨r, b1⟩
  cases r with
  | error e =>
    rw [Readings_of_open_error s w e b1 hopen]
    exact ⟨_, rfl, by simp [Event.isMutex]⟩
  | ok h =>
    rcases hwrite : h.Write [0x5c] b1 with ⟨werr, b2⟩
    rcases hread : h.Read 8 b2 with ⟨⟨buf, rerr⟩, b3⟩
    cases rerr with
    | some e =>
      rw [Readings_of_read_error s w h b1 b2 b3 werr buf e hopen hwrite hread]
      refine ⟨[Event.openHandle s.addr, Event.write h.id [0x5c]] ++
        (if werr.isSome then [Event.debug "Failed to request temperature"] else []) ++
        [Event.read h.id 8], by simp only [List.append_assoc], ?_⟩
      cases werr <;> simp [Event.isMutex]
    | none =>
      by_cases hlen : buf.length = 8
      · rcases hclose : h.Close b3 with ⟨cerr, b4⟩
        rw [Readings_of_full_read s w h b1 b2 b3 b4 werr cerr buf hopen hwrite hread hlen hclose]
        refine ⟨[Event.openHandle s.addr, Event.write h.id [0x5c]] ++
          (if werr.isSome then [Event.debug "Failed to request temperature"] else []) ++
          [Event.read h.id 8, Event.close h.id], by simp only [List.append_assoc], ?_⟩
        cases werr <;> simp [Event.isMutex]
      · rw [Readings_of_short_read s w h b1 b2 b3 werr buf hopen hwrite hread hlen]
        refine ⟨[Event.openHandle s.addr, Event.write h.id [0x5c]] ++
          (if werr.isSome then [Event.debug "Failed to request temperature"] else []) ++
          [Event.read h.id 8], by simp only [List.append_assoc], ?_⟩
        cases werr <;> simp [Event.isMutex]

theorem ReadingsRun_eq_Readings {σ : Type} (s : lps25h σ) (w : World σ) :
    s.ReadingsRun 5 (ReadingsPc.start, w) =
      (ReadingsPc.returned (s.Readings w).1, (s.Readings w).2) := by
  have htx : toByte lps25hMeasurementsReg = 0x5c := by decide
  rcases hopen : s.bus.OpenHandle s.addr w.bus with ⟨r, b1⟩
  cases r with
  | error e =>
    simp [lps25h.ReadingsRun, lps25h.ReadingsStep, lps25h.Readings, World.call, World.emit,
      hopen]
  | ok h =>
    rcases hwrite : h.Write [0x5c] b1 with ⟨werr, b2⟩
    rcases hread : h.Read 8 b2 with ⟨⟨buf, rerr⟩, b3⟩
    by_cases hlen : buf.length = 8 <;> cases rerr <;> cases werr <;>
      simp [lps25h.ReadingsRun, lps25h.ReadingsStep, lps25h.Readings, World.call, World.emit,
        hopen, htx, hwrite, hread, hlen]

/-- C10 (what the code does): `Readings` issues no call on the mutex. For every driver
and stub, every call it records is a bus or logger call, none is `Lock` or `Unlock`, and
it runs identically, bus calls included, on a driver whose mutex is currently held. With
the calls of two `Readings` goroutines on one driver scheduled alternately, the stub
records the two open/write/read/close sequences interleaved, and both calls return
readings. -/
theorem Readings_takes_no_lock :
    (∀ (σ : Type) (s : lps25h σ) (w : World σ),
      (∃ evs, (s.Readings w).2.trace = w.trace ++ evs ∧ ∀ e ∈ evs, e.isMutex = false) ∧
      (lps25h.mk s.name true s.bus s.addr s.calibration s.lastTemp).Readings w =
        s.Readings w) ∧
    alternatingRun.2.2.trace =
      [Event.openHandle 0x5c, Event.openHandle 0x5c,
        Event.write 1 [0x5c], Event.write 2 [0x5c],
        Event.read 1 8, Event.read 2 8,
        Event.close 1, Event.close 2] ∧
    alternatingRun.1.result = some (some [("id", GoValue.str [1, 2, 3, 4, 5, 6, 7, 8])], none) ∧
    alternatingRun.2.1.result =
      some (some [("id", GoValue.str [1, 2, 3, 4, 5, 6, 7, 8])], none) := by
  refine ⟨fun σ s w => ⟨Readings_no_mutex_call s w, rfl⟩, ?_⟩
  decide

end Sensehat
